import Mathlib

/-!
Verification of the timeit export-orchestration core.

Shallow embedding of:
* `src/core/prompts.ts` (`PromptService`): field resolution, persistence,
  prompting with bounded validation retries.  The interactive prompt surface
  (`vscode.window.showInputBox` / QuickPick inside `promptOnce`) is the
  I/O boundary; it is modelled as an oracle queue of user responses.
* `src/core/orchestrator.ts` (`ExportOrchestrator`): hydration, skip,
  validate, export with retry-on-server-rejection.  The embedded source is
  the second version found in `__tests__/backup.manager.test.ts`
  (the one with `requiredMissing` / `attemptWithReentryOnServerRejection`).
  The orchestrator is always constructed without an `OAuthManager` here, so
  `callExport` always reduces to `sink.export(session)`.
* `src/sinks/jira.sink.ts` (`JiraSink.export` guard path and
  `extractIssueKeyFrom`).  The worklog HTTP payload is data handed to the
  injected fetch function and does not influence control flow; the fetch
  boundary is modelled as an oracle response plus a call counter.

JavaScript `undefined`/`null` are both modelled as `Option.none`; dynamic
option bags are association lists keyed by strings; thrown exceptions are
`Except.error` carrying the message string.
-/

namespace TimeIt

/-- A JavaScript value as it appears in option bags, sessions and settings:
the source only ever stores strings, numbers and booleans there. -/
inductive Value where
  | vstr (s : String)
  | vnum (n : Int)
  | vbool (b : Bool)
deriving DecidableEq, Repr

/-- `String(value)` conversion. -/
def valToString : Value → String
  | .vstr s => s
  | .vnum n => toString n
  | .vbool b => if b then "true" else "false"

/-- JavaScript truthiness of a value (`"" , 0, false` are falsy). -/
def valTruthy : Value → Bool
  | .vstr s => s ≠ ""
  | .vnum n => n ≠ 0
  | .vbool b => b

/-- A JavaScript whitespace character as `String.prototype.trim` removes
(the code only ever meets the ASCII ones). -/
def isJsWhitespace (c : Char) : Bool :=
  c = ' ' || c = '\t' || c = '\n' || c = '\r' ||
    c = Char.ofNat 11 || c = Char.ofNat 12 || c = Char.ofNat 160

/-- `String.prototype.trim`. -/
def jsTrim (s : String) : String :=
  String.mk (((s.data.dropWhile isJsWhitespace).reverse.dropWhile
    isJsWhitespace).reverse)

/-- `isEmpty` of the orchestrator and the negation of `exists` of
`prompts.ts`: absent, null, or a string that trims to empty.
Both files use literally the same predicate. -/
def valIsEmpty : Value → Bool
  | .vstr s => jsTrim s = ""
  | .vnum _ => false
  | .vbool _ => false

/-- `isEmpty` lifted to a possibly-absent value. -/
def isEmptyO : Option Value → Bool
  | none => true
  | some v => valIsEmpty v

/-- `exists` from `prompts.ts`. -/
def existsO (v : Option Value) : Bool := !(isEmptyO v)

/-- Association-list lookup, modelling `bag[key]` (and `key in bag`,
since the source never stores `undefined` in a bag). -/
def lookupAssoc (l : List (String × Value)) (k : String) : Option Value :=
  match l.find? (fun p => p.fst = k) with
  | some p => some p.snd
  | none => none

/-- Association-list update, modelling `bag[key] = v`. -/
def setAssoc (l : List (String × Value)) (k : String) (v : Value) :
    List (String × Value) :=
  match l with
  | [] => [(k, v)]
  | p :: rest => if p.fst = k then (k, v) :: rest else p :: setAssoc rest k v

/-- Secret-store lookup (`secrets.get`). -/
def lookupSec (l : List (String × String)) (k : String) : Option String :=
  match l.find? (fun p => p.fst = k) with
  | some p => some p.snd
  | none => none

/-- Secret-store update (`secrets.set`). -/
def setSec (l : List (String × String)) (k : String) (v : String) :
    List (String × String) :=
  match l with
  | [] => [(k, v)]
  | p :: rest => if p.fst = k then (k, v) :: rest else p :: setSec rest k v

/-- Truthiness of an optional string (`undefined` and `""` are falsy),
used for `spec.settingKey`, `res.field` and `spec.placeholder ||` tests. -/
def optStrTruthy : Option String → Bool
  | none => false
  | some s => s ≠ ""

/-- `a || b` on optional strings with JavaScript truthiness. -/
def orTruthyStr (a b : Option String) : Option String :=
  if optStrTruthy a then a else b

/-- `RequirementType` from `src/core/sink.ts`. -/
inductive RequirementType where
  | string
  | number
  | secret
  | boolean
deriving DecidableEq, Repr

/-- `RequirementScope` from `src/core/sink.ts`. -/
inductive RequirementScope where
  | setup
  | runtime
deriving DecidableEq, Repr

/-- `FieldSpec` from `src/core/sink.ts`, restricted to the fields the
embedded code reads.  `validate` returns an error message or nothing;
`ui`/`select` only choose which prompt surface appears and are absorbed
into the prompt oracle.  The declared `persist` field is never read by
`prompts.ts` (which uses `remember`/`settingKey`/`implicitSetting`),
so it is omitted. -/
structure FieldSpec where
  key : String
  label : String
  type : RequirementType
  scope : RequirementScope
  required : Bool := false
  placeholder : Option String := none
  validate : Option (Value → Option String) := none
  settingKey : Option String := none
  secretKey : Option String := none
  remember : Option Bool := none
  implicitSetting : Bool := false

/-- The secret-store key used for a secret field:
`spec.secretKey || 'clockit.' + spec.key`. -/
def secretKeyOf (spec : FieldSpec) : String :=
  match spec.secretKey with
  | some k => if k ≠ "" then k else "clockit." ++ spec.key
  | none => "clockit." ++ spec.key

/-- `spec.validate?.(v)`. -/
def validateApp (spec : FieldSpec) (v : Value) : Option String :=
  match spec.validate with
  | some f => f v
  | none => none

/-- Whether a validator outcome is a failure: `!!err` in the source,
so only a non-empty message counts as invalid. -/
def validateFails (spec : FieldSpec) (v : Value) : Bool :=
  match validateApp spec v with
  | some e => e ≠ ""
  | none => false

/-- The state the `PromptService` reads and writes: the secret store, the
settings store (`vscode.workspace.getConfiguration`), the queued user
responses of the interactive prompt surface (`none` = the user cancelled),
the number of prompts shown so far, and the surfaced error messages
(`vscode.window.showErrorMessage`). -/
structure PromptState where
  secrets : List (String × String) := []
  settings : List (String × Value) := []
  oracle : List (Option Value) := []
  promptCount : Nat := 0
  shownErrors : List String := []
deriving DecidableEq, Repr

/-- `promptOnce`: show one prompt appropriate to the field and obtain the
user response or a cancel.  The concrete input/QuickPick surface is the
I/O boundary; it is modelled by popping the response oracle.  An empty
oracle behaves as a cancel. -/
def promptOnce (st : PromptState) : Option Value × PromptState :=
  match st.oracle with
  | [] => (none, { st with promptCount := st.promptCount + 1 })
  | o :: rest => (o, { st with oracle := rest, promptCount := st.promptCount + 1 })

/-- The `while (attempts < 3)` loop body of `promptWithValidation`,
with `fuel` = the number of attempts still allowed.  An input that fails
`exists` — an explicit cancel, or an empty or whitespace-only string —
ends the loop immediately as a cancel (`if (!exists(input)) return
undefined`), before the validator runs and with no error surfaced. -/
def pwvLoop (spec : FieldSpec) : Nat → PromptState → Option Value × PromptState
  | 0, st => (none, st)
  | fuel + 1, st =>
    match (promptOnce st).fst with
    | none => (none, (promptOnce st).snd)
    | some v =>
      if valIsEmpty v then (none, (promptOnce st).snd)
      else
        match validateApp spec v with
        | none => (some v, (promptOnce st).snd)
        | some err =>
          if err = "" then (some v, (promptOnce st).snd)
          else
            pwvLoop spec fuel
              { (promptOnce st).snd with
                shownErrors := (promptOnce st).snd.shownErrors
                  ++ [spec.label ++ ": " ++ err] }

/-- `promptWithValidation`: prompt, validate, surface the message and
re-prompt on failure, at most three attempts in total. -/
def promptWithValidation (spec : FieldSpec) (st : PromptState) :
    Option Value × PromptState :=
  pwvLoop spec 3 st

/-- `readExisting`: secret store first for secret fields, then the
settings store under `settingKey`, then under the field key itself when
`implicitSetting` is set; empty strings count as absent throughout. -/
def readExisting (spec : FieldSpec) (st : PromptState) : Option Value :=
  let fromSecret : Option Value :=
    if spec.type = RequirementType.secret then
      match lookupSec st.secrets (secretKeyOf spec) with
      | some s => if jsTrim s ≠ "" then some (Value.vstr s) else none
      | none => none
    else none
  match fromSecret with
  | some v => some v
  | none =>
    let fromSetting : Option Value :=
      if optStrTruthy spec.settingKey then
        match spec.settingKey with
        | some k =>
          match lookupAssoc st.settings k with
          | some v => if existsO (some v) then some v else none
          | none => none
        | none => none
      else none
    match fromSetting with
    | some v => some v
    | none =>
      if spec.implicitSetting then
        match lookupAssoc st.settings spec.key with
        | some v => if existsO (some v) then some v else none
        | none => none
      else none

/-- `persist`: nothing when `remember === false`; secrets go to the secret
store under `secretKeyOf`; otherwise the settings store under `settingKey`,
or under the field key itself when `implicitSetting`; else memory only. -/
def persist (spec : FieldSpec) (v : Value) (st : PromptState) : PromptState :=
  if spec.remember = some false then st
  else if spec.type = RequirementType.secret then
    { st with secrets := setSec st.secrets (secretKeyOf spec) (valToString v) }
  else if optStrTruthy spec.settingKey then
    match spec.settingKey with
    | some k => { st with settings := setAssoc st.settings k v }
    | none => st
  else if spec.implicitSetting then
    { st with settings := setAssoc st.settings spec.key v }
  else st

/-- `resolveField`: current value, then persisted value, then (required
fields only) prompt with validation, then persist per the field policy. -/
def resolveField (spec : FieldSpec) (current : Option Value)
    (st : PromptState) : Option Value × PromptState :=
  if existsO current then (current, st)
  else
    let existing := readExisting spec st
    if existsO existing then (existing, st)
    else if !spec.required then (none, st)
    else
      let r := promptWithValidation spec st
      match r.fst with
      | none => (none, r.snd)
      | some v =>
        if valIsEmpty v then (none, r.snd)
        else if spec.remember = some false then (some v, r.snd)
        else (some v, persist spec v r.snd)

/-- `Session` from `src/core/types.ts`: timestamps, duration, the five
well-known runtime fields, the `meta.fields` bag, plus `ownKeys` (the set
of own property names, driving the JavaScript `in` checks of `_inject`
and `_readCurrent`) and `extra` for dynamically added properties outside
the five well-known ones. -/
structure Session where
  startedIso : String := ""
  endedIso : String := ""
  durationSeconds : Nat := 0
  workspace : Option Value := none
  repoPath : Option Value := none
  branch : Option Value := none
  issueKey : Option Value := none
  comment : Option Value := none
  metaFields : List (String × Value) := []
  ownKeys : List String := []
  extra : List (String × Value) := []
deriving DecidableEq, Repr

/-- `key in session`. -/
def sessionHasKey (s : Session) (k : String) : Bool := s.ownKeys.contains k

/-- `session[key]` dynamic property read. -/
def sessionGetDyn (s : Session) (k : String) : Option Value :=
  if k = "issueKey" then s.issueKey
  else if k = "comment" then s.comment
  else if k = "branch" then s.branch
  else if k = "repoPath" then s.repoPath
  else if k = "workspace" then s.workspace
  else lookupAssoc s.extra k

/-- `session[key] = v` dynamic property write. -/
def sessionSetDyn (s : Session) (k : String) (v : Value) : Session :=
  if k = "issueKey" then { s with issueKey := some v }
  else if k = "comment" then { s with comment := some v }
  else if k = "branch" then { s with branch := some v }
  else if k = "repoPath" then { s with repoPath := some v }
  else if k = "workspace" then { s with workspace := some v }
  else { s with extra := setAssoc s.extra k v }

/-- `Result` from `src/core/types.ts`; an absent `retryable` is falsy, so
it is a plain `Bool`; the carried `error` object is kept as its message. -/
structure Result where
  ok : Bool
  message : Option String := none
  code : Option String := none
  field : Option String := none
  retryable : Bool := false
  hint : Option String := none
  error : Option String := none
deriving DecidableEq, Repr

/-- One element of the orchestrator output: `{ kind, ...res }`. -/
structure KindResult where
  kind : String
  res : Result
deriving DecidableEq, Repr

/-- The `{ok, missing?}` shape returned by `sink.validate()`. -/
structure ValidateOut where
  ok : Bool
  missing : List String := []
deriving DecidableEq, Repr

/-- A destination sink as the orchestrator sees it: identity, mutable
options bag, and the three capabilities it may call, each of which may
throw (`Except.error`).  `requirements = none` models a sink without a
`requirements` function.  `validateFn` reads the options bag at call
time; `exportFn` additionally receives the 0-based export call index so
that per-call behaviours (always fail, fail then succeed) can be
expressed. -/
structure ModelSink where
  kind : String
  options : List (String × Value) := []
  requirements : Option (Except String (List FieldSpec)) := none
  validateFn : Option (List (String × Value) → Except String ValidateOut) := none
  exportFn : List (String × Value) → Session → Nat → Except String Result

/-- `typeof sink.requirements === 'function' ? sink.requirements() || [] : []`
(with the throw propagated). -/
def getReqs (sink : ModelSink) : Except String (List FieldSpec) :=
  match sink.requirements with
  | none => Except.ok []
  | some r => r

/-- `MAX_EXPORT_RETRIES` from `src/core/orchestrator.ts`. -/
def MAX_EXPORT_RETRIES : Nat := 3

/-- `isEmpty` of the orchestrator: same predicate as `prompts.ts`. -/
def isEmpty (v : Option Value) : Bool := isEmptyO v

/-- `valueFromSession`: the five well-known runtime keys. -/
def valueFromSession (s : Session) (key : String) : Option Value :=
  if key = "issueKey" then s.issueKey
  else if key = "comment" then s.comment
  else if key = "branch" then s.branch
  else if key = "repoPath" then s.repoPath
  else if key = "workspace" then s.workspace
  else none

/-- `pickExistingValue`: prefer a non-empty options value, else the
session-derived value. -/
def pickExistingValue (optionValue sessionValue : Option Value) : Option Value :=
  if !isEmpty optionValue then optionValue else sessionValue

/-- The `current` value computed at the top of the hydration loop body. -/
def hydrCurrent (spec : FieldSpec) (opts : List (String × Value))
    (s : Session) : Option Value :=
  pickExistingValue (lookupAssoc opts spec.key) (valueFromSession s spec.key)

/-- The `resolved` value of one hydration-loop iteration: prompt when the
field is required and its current value is empty or fails the field
validator, else keep the current value. -/
def hydrResolved (spec : FieldSpec) (opts : List (String × Value))
    (s : Session) (p : PromptState) : Option Value × PromptState :=
  let current := hydrCurrent spec opts s
  let currentInvalid :=
    spec.required && !isEmpty current &&
      (match current with
       | some cv => validateFails spec cv
       | none => false)
  let needsValue := spec.required && (isEmpty current || currentInvalid)
  if needsValue then
    resolveField spec (if isEmpty current then none else current) p
  else (current, p)

/-- One iteration of the `resolveAndInjectRequirements` loop: resolve,
then write the resolved (or pre-existing) non-empty value into the
options bag; a required field whose resolution stayed empty is left
missing for `requiredMissing` to report. -/
def hydrateOne (spec : FieldSpec) (opts : List (String × Value))
    (s : Session) (p : PromptState) : List (String × Value) × PromptState :=
  if spec.required && isEmpty (hydrResolved spec opts s p).fst then
    (opts, (hydrResolved spec opts s p).snd)
  else
    match (hydrResolved spec opts s p).fst with
    | some v =>
      if !valIsEmpty v then
        (setAssoc opts spec.key v, (hydrResolved spec opts s p).snd)
      else
        match hydrCurrent spec opts s with
        | some c =>
          if !valIsEmpty c then
            (setAssoc opts spec.key c, (hydrResolved spec opts s p).snd)
          else (opts, (hydrResolved spec opts s p).snd)
        | none => (opts, (hydrResolved spec opts s p).snd)
    | none =>
      match hydrCurrent spec opts s with
      | some c =>
        if !valIsEmpty c then
          (setAssoc opts spec.key c, (hydrResolved spec opts s p).snd)
        else (opts, (hydrResolved spec opts s p).snd)
      | none => (opts, (hydrResolved spec opts s p).snd)

/-- `resolveAndInjectRequirements`: hydrate each spec in order, threading
the options bag and the prompt state.  The session is only read here;
no value is ever written back into it during hydration. -/
def resolveAndInjectRequirements :
    List FieldSpec → List (String × Value) → Session → PromptState →
    List (String × Value) × PromptState
  | [], opts, _, p => (opts, p)
  | spec :: rest, opts, s, p =>
    let r := hydrateOne spec opts s p
    resolveAndInjectRequirements rest r.fst s r.snd

/-- `requiredMissing`: the required fields whose value is still empty in
both the options bag and the session. -/
def requiredMissing (specs : List FieldSpec) (opts : List (String × Value))
    (s : Session) : List String :=
  (specs.filter fun spec =>
      spec.required &&
        isEmpty (pickExistingValue (lookupAssoc opts spec.key)
          (valueFromSession s spec.key))).map (·.key)

/-- `_readCurrent`: options bag first, then (runtime scope) the session
property when present, then the `meta.fields` bag. -/
def readCurrentOf (spec : FieldSpec) (opts : List (String × Value))
    (s : Session) : Option Value :=
  match lookupAssoc opts spec.key with
  | some v => some v
  | none =>
    if spec.scope = RequirementScope.runtime && sessionHasKey s spec.key then
      sessionGetDyn s spec.key
    else
      lookupAssoc s.metaFields spec.key

/-- `_inject`: setup-scope values go into the options bag; runtime-scope
values go into the matching session property when present, else into the
`meta.fields` bag. -/
def injectField (spec : FieldSpec) (v : Value) (opts : List (String × Value))
    (s : Session) : List (String × Value) × Session :=
  if spec.scope = RequirementScope.setup then (setAssoc opts spec.key v, s)
  else if sessionHasKey s spec.key then (opts, sessionSetDyn s spec.key v)
  else (opts, { s with metaFields := setAssoc s.metaFields spec.key v })

/-- Truthiness of `res.field`. -/
def fieldTruthy (f : Option String) : Bool :=
  match f with
  | none => false
  | some s => s ≠ ""

/-- The outcome of the export phase of one sink: the final result (or the
propagated throw), the final options bag, session and prompt state, and
how many times `sink.export` was attempted. -/
structure AttemptOut where
  res : Except String Result
  opts : List (String × Value)
  session : Session
  prompt : PromptState
  calls : Nat

/-- `String(res.field)` as the retry loop computes it (the loop is only
entered when the field is a truthy string, so the fallback is dead
code). -/
def fieldKeyOf : Option String → String
  | some f => f
  | none => ""

/-- The spec copy used for forced re-resolution:
`{...spec, required: true, placeholder: spec.placeholder || res.hint}`. -/
def respecOf (sp : FieldSpec) (res : Result) : FieldSpec :=
  { sp with required := true,
            placeholder := orTruthyStr sp.placeholder res.hint }

/-- The synthetic failure recorded when re-resolution yields no value. -/
def repromptFailed (sp : FieldSpec) : Result :=
  { ok := false,
    message := some ("Failed to re-prompt for field " ++ sp.key),
    code := some "missing_field" }

/-- The `while (attempts < MAX_EXPORT_RETRIES ...)` loop of
`attemptWithReentryOnServerRejection`, with `fuel` = the retries still
allowed and `calls` = the export attempts already made. -/
def retryLoop (sink : ModelSink) (reqs : List FieldSpec) :
    Nat → Result → List (String × Value) → Session → PromptState → Nat →
    AttemptOut
  | 0, res, opts, s, p, calls => ⟨Except.ok res, opts, s, p, calls⟩
  | fuel + 1, res, opts, s, p, calls =>
    if !res.ok && res.retryable && fieldTruthy res.field then
      match reqs.find? (fun sp => sp.key = fieldKeyOf res.field) with
      | none => ⟨Except.ok res, opts, s, p, calls⟩
      | some sp =>
        match resolveField (respecOf sp res) (readCurrentOf sp opts s) p with
        | (none, p2) => ⟨Except.ok (repromptFailed sp), opts, s, p2, calls⟩
        | (some nv, p2) =>
          if valIsEmpty nv then
            ⟨Except.ok (repromptFailed sp), opts, s, p2, calls⟩
          else
            match sink.exportFn (injectField sp nv opts s).fst
                (injectField sp nv opts s).snd calls with
            | Except.error e =>
              ⟨Except.error e, (injectField sp nv opts s).fst,
                (injectField sp nv opts s).snd, p2, calls + 1⟩
            | Except.ok res2 =>
              retryLoop sink reqs fuel res2 (injectField sp nv opts s).fst
                (injectField sp nv opts s).snd p2 (calls + 1)
    else ⟨Except.ok res, opts, s, p, calls⟩

/-- `attemptWithReentryOnServerRejection`: one export attempt, then up to
`MAX_EXPORT_RETRIES` targeted re-resolutions and re-attempts while the
result is a retryable rejection naming a declared field. -/
def attemptWithReentryOnServerRejection (sink : ModelSink)
    (opts : List (String × Value)) (s : Session) (p : PromptState)
    (reqs : List FieldSpec) : AttemptOut :=
  match sink.exportFn opts s 0 with
  | Except.error e => ⟨Except.error e, opts, s, p, 1⟩
  | Except.ok res => retryLoop sink reqs MAX_EXPORT_RETRIES res opts s p 1

/-- The `catch` conversion: `{kind, ok:false, message, error}`. -/
def failedResult (e : String) : Result :=
  { ok := false, message := some e, error := some e }

/-- The graceful-skip result recorded when required fields are still
missing after hydration. -/
def skippedMissingResult (missing : List String) : Result :=
  { ok := true,
    message := some ("Skipped: missing required fields ("
      ++ String.intercalate ", " missing ++ ")") }

/-- The graceful-skip result recorded when `sink.validate()` fails. -/
def skippedInvalidResult (missing : List String) : Result :=
  { ok := true,
    message := some (if String.intercalate ", " missing ≠ "" then
        "Skipped: invalid config (" ++ String.intercalate ", " missing ++ ")"
      else "Skipped: invalid config") }

/-- The per-sink outcome of `hydrateAndExport`: the recorded result, the
sink with its final options bag, the final session and prompt state, the
number of export attempts, and the caught exception message when the
`catch` branch ran. -/
structure SinkOutcome where
  result : KindResult
  sink : ModelSink
  session : Session
  prompt : PromptState
  exportCalls : Nat
  threw : Option String

/-- The body of the per-sink `try`/`catch` of `hydrateAndExport`:
gather requirements, hydrate, skip when required fields are still
missing, validate, then export with the retry loop; any throw is caught
at this boundary and converted into a Failed result. -/
def processSink (sink : ModelSink) (s : Session) (p : PromptState) :
    SinkOutcome :=
  match getReqs sink with
  | Except.error e =>
    ⟨⟨sink.kind, failedResult e⟩, sink, s, p, 0, some e⟩
  | Except.ok reqs =>
    let hyd := resolveAndInjectRequirements reqs sink.options s p
    let sink2 := { sink with options := hyd.fst }
    let missing := requiredMissing reqs hyd.fst s
    if missing.length > 0 then
      ⟨⟨sink.kind, skippedMissingResult missing⟩, sink2, s, hyd.snd, 0, none⟩
    else
      let afterValidate : Except String (Option KindResult) :=
        match sink.validateFn with
        | some f =>
          match f hyd.fst with
          | Except.error e => Except.error e
          | Except.ok v =>
            if !v.ok then
              Except.ok (some ⟨sink.kind, skippedInvalidResult v.missing⟩)
            else Except.ok none
        | none => Except.ok none
      match afterValidate with
      | Except.error e =>
        ⟨⟨sink.kind, failedResult e⟩, sink2, s, hyd.snd, 0, some e⟩
      | Except.ok (some skipped) =>
        ⟨skipped, sink2, s, hyd.snd, 0, none⟩
      | Except.ok none =>
        let att := attemptWithReentryOnServerRejection sink hyd.fst s hyd.snd reqs
        match att.res with
        | Except.error e =>
          ⟨⟨sink.kind, failedResult e⟩, { sink with options := att.opts },
            att.session, att.prompt, att.calls, some e⟩
        | Except.ok r =>
          ⟨⟨sink.kind, r⟩, { sink with options := att.opts },
            att.session, att.prompt, att.calls, none⟩

/-- The output of a whole `hydrateAndExport` run: one result per sink in
order, the final session and prompt state, and each sink with its export
attempt count. -/
structure RunOut where
  results : List KindResult
  session : Session
  prompt : PromptState
  sinks : List (ModelSink × Nat)

/-- `hydrateAndExport`: process the sinks sequentially, threading the
session and the prompt state; one result per sink, in supply order. -/
def hydrateAndExport : List ModelSink → Session → PromptState → RunOut
  | [], s, p => ⟨[], s, p, []⟩
  | sink :: rest, s, p =>
    let out := processSink sink s p
    let tail := hydrateAndExport rest out.session out.prompt
    ⟨out.result :: tail.results, tail.session, tail.prompt,
      (out.sink, out.exportCalls) :: tail.sinks⟩

/-! ### JiraSink (`src/sinks/jira.sink.ts`) -/

/-- A Latin letter, the `[A-Z]` class under the `i` flag. -/
def isLatinLetter (c : Char) : Bool :=
  (65 ≤ c.toNat && c.toNat ≤ 90) || (97 ≤ c.toNat && c.toNat ≤ 122)

/-- An ASCII digit, the `\d` class. -/
def isAsciiDigit (c : Char) : Bool := 48 ≤ c.toNat && c.toNat ≤ 57

/-- The `[A-Z0-9]` class under the `i` flag. -/
def isKeyAlnum (c : Char) : Bool := isLatinLetter c || isAsciiDigit c

/-- Match `/[A-Z][A-Z0-9]+-\d+/i` anchored at the start of the character
list: a letter, at least one alphanumeric, a dash, at least one digit,
each run taken greedily (the character classes exclude the dash, so
greedy matching needs no backtracking here). -/
def issueKeyAt (cs : List Char) : Option (List Char) :=
  match cs with
  | [] => none
  | c :: rest =>
    if isLatinLetter c then
      let run := rest.takeWhile isKeyAlnum
      if run.length ≥ 1 then
        match rest.drop run.length with
        | '-' :: rest2 =>
          let digs := rest2.takeWhile isAsciiDigit
          if digs.length ≥ 1 then some (c :: run ++ '-' :: digs) else none
        | _ => none
      else none
    else none

/-- Leftmost match of the issue-key pattern, as `String.match` returns. -/
def findIssueKey : List Char → Option (List Char)
  | [] => none
  | c :: rest =>
    match issueKeyAt (c :: rest) with
    | some m => some m
    | none => findIssueKey rest

/-- `extractIssueKeyFrom`: `null`/`undefined`/empty text gives `null`;
else the first issue-key-shaped substring, uppercased. -/
def extractIssueKeyFrom (text : Option String) : Option String :=
  match text with
  | none => none
  | some t =>
    if t = "" then none
    else
      match findIssueKey t.data with
      | some m => some (String.mk (m.map Char.toUpper))
      | none => none

/-- The session comment as the string `extractIssueKeyFrom` receives
(`comment` is typed `string | undefined` in the source). -/
def sessionCommentStr (s : Session) : Option String :=
  match s.comment with
  | some v => some (valToString v)
  | none => none

/-- `s.issueKey || extractIssueKeyFrom(s.comment)` from `JiraSink.export`. -/
def jiraFromSession (s : Session) : Option String :=
  match s.issueKey with
  | some v =>
    if valTruthy v then some (valToString v)
    else extractIssueKeyFrom (sessionCommentStr s)
  | none => extractIssueKeyFrom (sessionCommentStr s)

/-- `(this.options['issueKey'] || '').toString().trim()`. -/
def jiraInjected (opts : List (String × Value)) : String :=
  match lookupAssoc opts "issueKey" with
  | some v => jsTrim (if valTruthy v then valToString v else "")
  | none => ""

/-- The issue key `JiraSink.export` settles on:
`(injected || fromSession || '').trim()`. -/
def jiraIssueOf (opts : List (String × Value)) (s : Session) : String :=
  jsTrim (if jiraInjected opts ≠ "" then jiraInjected opts
   else
     match jiraFromSession s with
     | some t => t
     | none => "")

/-- The response of the injected fetch function; `none` models a thrown
network error. -/
structure FetchResp where
  ok : Bool
  status : Nat
  text : String
deriving DecidableEq, Repr

/-- The outcome of one `JiraSink.export` call: the returned result and
how many network requests were performed. -/
structure JiraOut where
  result : Result
  fetchCalls : Nat
deriving DecidableEq, Repr

/-- `JiraSink.export`: skip with `ok:true` when no issue key is
available; otherwise POST the worklog once (the request payload is data
handed to the fetch boundary and is absorbed into the oracle) and map
the response. -/
def jiraExport (opts : List (String × Value)) (s : Session)
    (fetch : Option FetchResp) : JiraOut :=
  let issue := jiraIssueOf opts s
  if issue = "" then
    ⟨{ ok := true, message := some "Skipped (no issueKey)" }, 0⟩
  else
    match fetch with
    | none =>
      ⟨{ ok := false, message := some "Network error calling Jira",
         error := some "network error" }, 1⟩
    | some r =>
      if !r.ok then
        ⟨{ ok := false, message := some ("Jira " ++ toString r.status),
           error := some (if r.text ≠ "" then r.text else "Jira worklog failed") }, 1⟩
      else
        ⟨{ ok := true, message := some ("Jira → " ++ issue) }, 1⟩

/-! ### Helper lemmas -/

/-- Updating an association list then reading the same key gives the
written value. -/
theorem lookupAssoc_setAssoc_self (l : List (String × Value)) (k : String)
    (v : Value) : lookupAssoc (setAssoc l k v) k = some v := by
  induction l with
  | nil => simp [setAssoc, lookupAssoc, List.find?]
  | cons p rest ih =>
    by_cases h : p.fst = k
    · simp [setAssoc, h, lookupAssoc, List.find?]
    · simp only [setAssoc, if_neg h]
      simpa [lookupAssoc, List.find?, h] using ih

/-- Updating the secret store at one key does not change any other key. -/
theorem lookupSec_setSec_ne (l : List (String × String)) (k k2 : String)
    (v : String) (h : k2 ≠ k) : lookupSec (setSec l k v) k2 = lookupSec l k2 := by
  have h2 : ¬ (k = k2) := fun hh => h hh.symm
  induction l with
  | nil => simp [setSec, lookupSec, List.find?, h2]
  | cons p rest ih =>
    by_cases hp : p.fst = k
    · simp only [setSec, if_pos hp]
      simp [lookupSec, List.find?, h2, hp]
    · simp only [setSec, if_neg hp]
      by_cases hq : p.fst = k2
      · simp [lookupSec, List.find?, hq]
      · simpa [lookupSec, List.find?, hq] using ih

/-- The prompting loop touches neither the secret store nor the settings
store. -/
theorem pwvLoop_stores (spec : FieldSpec) (n : Nat) (st : PromptState) :
    (pwvLoop spec n st).snd.secrets = st.secrets ∧
      (pwvLoop spec n st).snd.settings = st.settings := by
  induction n generalizing st with
  | zero => exact ⟨rfl, rfl⟩
  | succ n ih =>
    simp only [pwvLoop, promptOnce]
    cases h : st.oracle with
    | nil => simp
    | cons o rest =>
      cases o with
      | none => simp
      | some v =>
        by_cases hvv : valIsEmpty v
        · simp [hvv]
        · cases hv : validateApp spec v with
          | none => simp [hvv, hv]
          | some err =>
            by_cases he : err = ""
            · simp [hvv, hv, he]
            · simpa [hvv, hv, he] using ih _

/-- The prompting loop shows at most `n` further prompts. -/
theorem pwvLoop_promptCount (spec : FieldSpec) (n : Nat) (st : PromptState) :
    (pwvLoop spec n st).snd.promptCount ≤ st.promptCount + n := by
  induction n generalizing st with
  | zero => simp [pwvLoop]
  | succ n ih =>
    simp only [pwvLoop, promptOnce]
    cases h : st.oracle with
    | nil => simp
    | cons o rest =>
      cases o with
      | none => simp
      | some v =>
        by_cases hvv : valIsEmpty v
        · simp [hvv]
        · cases hv : validateApp spec v with
          | none => simp [hvv, hv]
          | some err =>
            by_cases he : err = ""
            · simp [hvv, hv, he]
            · simp only [hvv, hv, he, if_neg, Bool.false_eq_true]
              calc (pwvLoop spec n _).snd.promptCount
                  ≤ st.promptCount + 1 + n := ih _
                _ ≤ st.promptCount + (n + 1) := by omega

/-! ### Claims about the field-resolution service -/

/-- **C6.** For every `FieldSpec` with `required = false`, when no
non-empty current value is supplied and no persisted value exists in the
secret store or settings store, `PromptService.resolveField` returns
absent without invoking any prompt (the prompt state, including the
prompt counter and the response queue, is unchanged). -/
theorem c6_optional_absent_no_prompt (spec : FieldSpec) (cur : Option Value)
    (st : PromptState) (hreq : spec.required = false)
    (hcur : isEmptyO cur = true) (hex : readExisting spec st = none) :
    resolveField spec cur st = (none, st) := by
  have h1 : existsO cur = false := by rw [existsO, hcur]; rfl
  have h2 : existsO (readExisting spec st) = false := by
    rw [hex]; rfl
  simp [resolveField, h1, h2, hreq]

/-- Concrete run of `c6_optional_absent_no_prompt`: an optional string
field with empty stores resolves to absent and shows no prompt. -/
theorem c6_optional_absent_no_prompt_witness :
    resolveField
      { key := "svc.note", label := "Note", type := RequirementType.string,
        scope := RequirementScope.runtime, required := false }
      none { oracle := [some (Value.vstr "typed")] } =
      (none, { oracle := [some (Value.vstr "typed")] }) :=
  c6_optional_absent_no_prompt _ none _ rfl rfl rfl

/-- **C7.** For every `FieldSpec` of kind `secret`, resolution never
writes to the settings store, and the only secret-store key it can write
is the designated one (`spec.secretKey` or the derived
`clockit.<key>`). -/
theorem c7_secret_never_in_settings (spec : FieldSpec) (cur : Option Value)
    (st : PromptState) (hsec : spec.type = RequirementType.secret) :
    (resolveField spec cur st).snd.settings = st.settings ∧
      ∀ k2, k2 ≠ secretKeyOf spec →
        lookupSec (resolveField spec cur st).snd.secrets k2 =
          lookupSec st.secrets k2 := by
  have hst := pwvLoop_stores spec 3 st
  unfold resolveField promptWithValidation
  cases h1 : existsO cur with
  | true => simp [h1]
  | false =>
    simp only [h1, Bool.false_eq_true, if_false]
    cases h2 : existsO (readExisting spec st) with
    | true => simp [h2]
    | false =>
      simp only [h2, Bool.false_eq_true, if_false]
      cases h3 : spec.required with
      | false => simp [h3]
      | true =>
        simp only [h3, Bool.not_true, Bool.false_eq_true, if_false]
        cases hr : (pwvLoop spec 3 st).fst with
        | none =>
          simp only [hr]
          exact ⟨hst.2, fun k2 _ => by rw [hst.1]⟩
        | some v =>
          simp only [hr]
          cases hv : valIsEmpty v with
          | true =>
            simp only [hv, if_true]
            exact ⟨hst.2, fun k2 _ => by rw [hst.1]⟩
          | false =>
            simp only [hv, Bool.false_eq_true, if_false]
            by_cases hm : spec.remember = some false
            · simp only [hm, if_true]
              exact ⟨hst.2, fun k2 _ => by rw [hst.1]⟩
            · simp only [hm, if_false]
              constructor
              · show (persist spec v (pwvLoop spec 3 st).snd).settings = st.settings
                unfold persist
                simp only [hm, if_false, hsec, if_pos rfl]
                simpa using hst.2
              · intro k2 hk2
                show lookupSec (persist spec v (pwvLoop spec 3 st).snd).secrets k2 =
                  lookupSec st.secrets k2
                unfold persist
                simp only [hm, if_false, hsec, if_pos rfl]
                show lookupSec
                  (setSec (pwvLoop spec 3 st).snd.secrets (secretKeyOf spec)
                    (valToString v)) k2 = lookupSec st.secrets k2
                rw [lookupSec_setSec_ne _ _ _ _ hk2, hst.1]

/-- Concrete run of `c7_secret_never_in_settings`: a prompted secret with
a configured `settingKey` still lands only in the secret store. -/
theorem c7_secret_never_in_settings_witness :
    (resolveField
        { key := "svc.token", label := "Token",
          type := RequirementType.secret, scope := RequirementScope.setup,
          required := true, settingKey := some "svc.token.setting" }
        none { oracle := [some (Value.vstr "S3CRET")] }).snd.settings =
      ([] : List (String × Value)) :=
  (c7_secret_never_in_settings _ none _ rfl).1

/-- **C9.** Resolution is idempotent with respect to persistence: with no
current value supplied and a non-empty persisted value `v` readable from
the designated store, `resolveField` returns `v` and leaves the prompt
state untouched, so a second resolution also returns `v` with no
prompt. -/
theorem c9_idempotent_persisted (spec : FieldSpec) (cur : Option Value)
    (st : PromptState) (v : Value) (hcur : isEmptyO cur = true)
    (hne : valIsEmpty v = false) (hex : readExisting spec st = some v) :
    resolveField spec cur st = (some v, st) ∧
      resolveField spec cur (resolveField spec cur st).snd = (some v, st) := by
  have h1 : resolveField spec cur st = (some v, st) := by
    have hc : existsO cur = false := by rw [existsO, hcur]; rfl
    have hvx : existsO (some v) = true := by
      simp [existsO, isEmptyO, hne]
    unfold resolveField
    rw [hc]
    simp only [Bool.false_eq_true, if_false]
    rw [hex, hvx]
    simp
  exact ⟨h1, by rw [h1]; exact h1⟩

/-- Under the conditions that make `resolveField` reach the interactive
prompt (no current value, nothing persisted, field required), its outcome
is exactly the outcome of `promptWithValidation` when that is a cancel or
an exhausted retry. -/
theorem resolveField_prompt_absent (spec : FieldSpec) (cur : Option Value)
    (st st2 : PromptState) (hcur : isEmptyO cur = true)
    (hex : readExisting spec st = none) (hreq : spec.required = true)
    (hp : promptWithValidation spec st = (none, st2)) :
    resolveField spec cur st = (none, st2) := by
  have hc : existsO cur = false := by rw [existsO, hcur]; rfl
  have he : existsO (readExisting spec st) = false := by rw [hex]; rfl
  unfold resolveField
  rw [hc]
  simp only [Bool.false_eq_true, if_false]
  rw [he]
  simp only [Bool.false_eq_true, if_false, hreq, Bool.not_true]
  rw [hp]

/-- **C8.** When an interactively prompted value fails the validator of
the `FieldSpec`, the service re-prompts surfacing the validator message
on each failure, up to three attempts in total; and both cancellation at
any prompt and validation failure on every attempt make `resolveField`
resolve to absent.  Stated for a field that reaches the prompt (empty
current value, nothing persisted, required): at most three prompts are
shown; three scripted non-empty failing inputs give absent with the
three surfaced messages; a cancel at the first prompt gives absent; an
empty or whitespace-only submission at the first prompt also counts as a
cancel (`!exists(input)`) and gives absent after one prompt with no
validator run and no message surfaced; a non-empty failing input
followed by a cancel gives absent after two prompts. -/
theorem c8_bounded_validation_retry (spec : FieldSpec) (cur : Option Value)
    (st : PromptState) (hcur : isEmptyO cur = true)
    (hex : readExisting spec st = none) (hreq : spec.required = true) :
    ((promptWithValidation spec st).snd.promptCount ≤ st.promptCount + 3)
    ∧ (∀ v0 v1 v2 e0 e1 e2 rest,
        st.oracle = some v0 :: some v1 :: some v2 :: rest →
        valIsEmpty v0 = false → validateApp spec v0 = some e0 → e0 ≠ "" →
        valIsEmpty v1 = false → validateApp spec v1 = some e1 → e1 ≠ "" →
        valIsEmpty v2 = false → validateApp spec v2 = some e2 → e2 ≠ "" →
        resolveField spec cur st =
          (none, { st with
                   oracle := rest,
                   promptCount := st.promptCount + 3,
                   shownErrors := st.shownErrors ++
                     [spec.label ++ ": " ++ e0, spec.label ++ ": " ++ e1,
                      spec.label ++ ": " ++ e2] }))
    ∧ (∀ rest, st.oracle = none :: rest →
        resolveField spec cur st =
          (none, { st with oracle := rest, promptCount := st.promptCount + 1 }))
    ∧ (∀ v0 rest, st.oracle = some v0 :: rest → valIsEmpty v0 = true →
        resolveField spec cur st =
          (none, { st with oracle := rest, promptCount := st.promptCount + 1 }))
    ∧ (∀ v0 e0 rest, st.oracle = some v0 :: none :: rest →
        valIsEmpty v0 = false → validateApp spec v0 = some e0 → e0 ≠ "" →
        resolveField spec cur st =
          (none, { st with
                   oracle := rest,
                   promptCount := st.promptCount + 2,
                   shownErrors := st.shownErrors ++ [spec.label ++ ": " ++ e0] })) := by
  refine ⟨pwvLoop_promptCount spec 3 st, ?_, ?_, ?_, ?_⟩
  · intro v0 v1 v2 e0 e1 e2 rest h hn0 hv0 he0 hn1 hv1 he1 hn2 hv2 he2
    refine resolveField_prompt_absent spec cur st _ hcur hex hreq ?_
    unfold promptWithValidation
    simp [pwvLoop, promptOnce, h, hn0, hv0, he0, hn1, hv1, he1, hn2, hv2,
      he2, List.append_assoc]
  · intro rest h
    refine resolveField_prompt_absent spec cur st _ hcur hex hreq ?_
    unfold promptWithValidation
    simp [pwvLoop, promptOnce, h]
  · intro v0 rest h hn0
    refine resolveField_prompt_absent spec cur st _ hcur hex hreq ?_
    unfold promptWithValidation
    simp [pwvLoop, promptOnce, h, hn0]
  · intro v0 e0 rest h hn0 hv0 he0
    refine resolveField_prompt_absent spec cur st _ hcur hex hreq ?_
    unfold promptWithValidation
    simp [pwvLoop, promptOnce, h, hn0, hv0, he0]

/-- Concrete run of `c8_bounded_validation_retry`: three inputs all
rejected by the validator leave absent, three prompts and three surfaced
messages. -/
theorem c8_bounded_validation_retry_witness :
    resolveField
      { key := "svc.domain", label := "Domain",
        type := RequirementType.string, scope := RequirementScope.setup,
        required := true,
        validate := some (fun v =>
          if valToString v = "good" then none else some "bad value") }
      none
      { oracle := [some (Value.vstr "a"), some (Value.vstr "b"),
                   some (Value.vstr "c"), some (Value.vstr "d")] } =
    (none,
      { oracle := [some (Value.vstr "d")], promptCount := 3,
        shownErrors := ["Domain: bad value", "Domain: bad value",
                        "Domain: bad value"] }) :=
  (c8_bounded_validation_retry _ none _ rfl (by decide) rfl).2.1
    (Value.vstr "a") (Value.vstr "b") (Value.vstr "c")
    "bad value" "bad value" "bad value" [some (Value.vstr "d")]
    rfl (by decide) (by decide) (by decide) (by decide) (by decide)
    (by decide) (by decide) (by decide) (by decide)

/-- Every branch of `processSink` records a result tagged with the kind
of the processed sink. -/
theorem processSink_kind (sink : ModelSink) (s : Session) (p : PromptState) :
    (processSink sink s p).result.kind = sink.kind := by
  unfold processSink
  cases hg : getReqs sink with
  | error e => rfl
  | ok reqs =>
    dsimp only
    split
    · rfl
    · split
      · rfl
      · rename_i skipped heq
        split at heq
        · split at heq
          · cases heq
          · split at heq
            · simp only [Except.ok.injEq, Option.some.injEq] at heq
              subst heq
              rfl
            · simp at heq
        · simp at heq
      · split <;> rfl

/-- **C5.** `hydrateAndExport` returns exactly one result per supplied
sink, and the sequence of `kind` values in the result list equals the
sequence of kinds of the supplied sinks, regardless of each individual
outcome. -/
theorem c5_order_preserved (sinks : List ModelSink) (s : Session)
    (p : PromptState) :
    (hydrateAndExport sinks s p).results.length = sinks.length ∧
      (hydrateAndExport sinks s p).results.map KindResult.kind =
        sinks.map ModelSink.kind := by
  induction sinks generalizing s p with
  | nil => exact ⟨rfl, rfl⟩
  | cons sink rest ih =>
    refine ⟨?_, ?_⟩
    · simpa [hydrateAndExport] using (ih _ _).1
    · simpa [hydrateAndExport, processSink_kind] using (ih _ _).2

/-- Processing a concatenation decomposes into processing the prefix and
then the suffix from the carried-over session and prompt state. -/
theorem hydrateAndExport_append (a b : List ModelSink) (s : Session)
    (p : PromptState) :
    (hydrateAndExport (a ++ b) s p).results =
      (hydrateAndExport a s p).results ++
        (hydrateAndExport b (hydrateAndExport a s p).session
          (hydrateAndExport a s p).prompt).results := by
  induction a generalizing s p with
  | nil => rfl
  | cons sink rest ih => simp [hydrateAndExport, ih]

/-- When the `catch` branch of `processSink` ran, the recorded result is
the Failed conversion of the caught error. -/
theorem processSink_threw_result (sink : ModelSink) (s : Session)
    (p : PromptState) (e : String)
    (h : (processSink sink s p).threw = some e) :
    (processSink sink s p).result = ⟨sink.kind, failedResult e⟩ := by
  revert h
  unfold processSink
  cases hg : getReqs sink with
  | error e2 =>
    intro h
    cases h
    rfl
  | ok reqs =>
    dsimp only
    split
    · intro h; cases h
    · split
      · intro h
        cases h
        rfl
      · intro h; cases h
      · split
        · intro h
          cases h
          rfl
        · intro h; cases h

/-- **C4.** If a sink throws during its processing (its `requirements`,
`validate` or `export` raised), `hydrateAndExport` catches the error at
that sink boundary, records a Failed result (`ok = false`) carrying the
error for that sink, and still processes every remaining sink, each
producing its own result. -/
theorem c4_throw_isolated (s1 s2 : List ModelSink) (sink : ModelSink)
    (session : Session) (p : PromptState) (e : String)
    (h : (processSink sink (hydrateAndExport s1 session p).session
            (hydrateAndExport s1 session p).prompt).threw = some e) :
    (hydrateAndExport (s1 ++ sink :: s2) session p).results =
      (hydrateAndExport s1 session p).results ++
        ⟨sink.kind, failedResult e⟩ ::
          (hydrateAndExport s2
            (processSink sink (hydrateAndExport s1 session p).session
              (hydrateAndExport s1 session p).prompt).session
            (processSink sink (hydrateAndExport s1 session p).session
              (hydrateAndExport s1 session p).prompt).prompt).results := by
  rw [hydrateAndExport_append]
  have hmid := processSink_threw_result sink
    (hydrateAndExport s1 session p).session
    (hydrateAndExport s1 session p).prompt e h
  simp [hydrateAndExport, hmid]

/-- A well-behaved sink with no requirements, used as a sibling of the
throwing sink in the isolation scenario. -/
def c4GoodSink (k : String) : ModelSink :=
  { kind := k, exportFn := fun _ _ _ => Except.ok { ok := true } }

/-- A sink whose `requirements()` throws. -/
def c4BadSink : ModelSink :=
  { kind := "bad", requirements := some (Except.error "boom"),
    exportFn := fun _ _ _ => Except.ok { ok := true } }

/-- Concrete run of `c4_throw_isolated`: sink `bad` throws in
`requirements()`; its result is the Failed conversion and the sinks
before and after it still contribute their results. -/
theorem c4_throw_isolated_witness :
    (hydrateAndExport ([c4GoodSink "A"] ++ c4BadSink :: [c4GoodSink "C"])
        {} {}).results =
      (hydrateAndExport [c4GoodSink "A"] {} {}).results ++
        ⟨"bad", failedResult "boom"⟩ ::
          (hydrateAndExport [c4GoodSink "C"]
            (processSink c4BadSink
              (hydrateAndExport [c4GoodSink "A"] {} {}).session
              (hydrateAndExport [c4GoodSink "A"] {} {}).prompt).session
            (processSink c4BadSink
              (hydrateAndExport [c4GoodSink "A"] {} {}).session
              (hydrateAndExport [c4GoodSink "A"] {} {}).prompt).prompt).results :=
  c4_throw_isolated [c4GoodSink "A"] [c4GoodSink "C"] c4BadSink {} {} "boom" rfl

/-- **C3.** A destination with at least one required field still empty
after hydration is recorded with `ok = true` and the message
`Skipped: missing required fields (...)` naming the missing field keys,
and its export is never called. -/
theorem c3_skip_missing_required (sink : ModelSink) (s : Session)
    (p : PromptState) (reqs : List FieldSpec)
    (hreq : getReqs sink = Except.ok reqs)
    (hm : requiredMissing reqs
        (resolveAndInjectRequirements reqs sink.options s p).fst s ≠ []) :
    (processSink sink s p).result.res.ok = true
    ∧ (processSink sink s p).result.res.message =
        some ("Skipped: missing required fields ("
          ++ String.intercalate ", "
            (requiredMissing reqs
              (resolveAndInjectRequirements reqs sink.options s p).fst s)
          ++ ")")
    ∧ (processSink sink s p).exportCalls = 0 := by
  have hlen : (requiredMissing reqs
      (resolveAndInjectRequirements reqs sink.options s p).fst s).length > 0 :=
    List.length_pos.mpr hm
  unfold processSink
  rw [hreq]
  dsimp only
  rw [if_pos hlen]
  exact ⟨rfl, rfl, rfl⟩

/-- One required setup field with no available input anywhere (the
oracle is empty, simulating a prompt cancel). -/
def c3wSpec : FieldSpec :=
  { key := "need.this", label := "Need", type := RequirementType.string,
    scope := RequirementScope.setup, required := true,
    settingKey := some "clockit.need.this" }

/-- The sink that declares `c3wSpec` as its only requirement. -/
def c3wSink : ModelSink :=
  { kind := "needs", requirements := some (Except.ok [c3wSpec]),
    exportFn := fun _ _ _ => Except.ok { ok := true } }

/-- Concrete run of `c3_skip_missing_required`: the destination result is
`ok = true` with the skip message naming `need.this`, and export is
never called. -/
theorem c3_skip_missing_required_witness :
    (processSink c3wSink {} {}).result.res.ok = true
    ∧ (processSink c3wSink {} {}).result.res.message =
        some ("Skipped: missing required fields ("
          ++ String.intercalate ", "
            (requiredMissing [c3wSpec]
              (resolveAndInjectRequirements [c3wSpec] c3wSink.options {} {}).fst
              {})
          ++ ")")
    ∧ (processSink c3wSink {} {}).exportCalls = 0 :=
  c3_skip_missing_required c3wSink {} {} [c3wSpec] rfl (by decide)

/-- The retry loop performs at most `fuel` further export attempts. -/
theorem retryLoop_calls_le (sink : ModelSink) (reqs : List FieldSpec) :
    ∀ (fuel : Nat) (res : Result) (o : List (String × Value)) (s : Session)
      (p : PromptState) (c : Nat),
      (retryLoop sink reqs fuel res o s p c).calls ≤ c + fuel := by
  intro fuel
  induction fuel with
  | zero => intro res o s p c; simp [retryLoop]
  | succ n ih =>
    intro res o s p c
    unfold retryLoop
    split
    · split
      · simp
      · split
        · simp
        · split
          · simp
          · split
            · simp
            · exact le_trans (ih _ _ _ _ _) (by omega)
    · simp

/-- When every export attempt returns a non-ok result, the retry loop
ends with a non-ok result. -/
theorem retryLoop_fail_ok_false (sink : ModelSink) (reqs : List FieldSpec)
    (hfail : ∀ o2 s2 n2, ∃ r2,
      sink.exportFn o2 s2 n2 = Except.ok r2 ∧ r2.ok = false) :
    ∀ (fuel : Nat) (res : Result) (o : List (String × Value)) (s : Session)
      (p : PromptState) (c : Nat), res.ok = false →
      ∀ r, (retryLoop sink reqs fuel res o s p c).res = Except.ok r →
        r.ok = false := by
  intro fuel
  induction fuel with
  | zero =>
    intro res o s p c hres r hr
    have h2 : res = r := by simpa [retryLoop] using hr
    rw [← h2]; exact hres
  | succ n ih =>
    intro res o s p c hres r hr
    unfold retryLoop at hr
    split at hr
    · split at hr
      · have h2 : res = r := by simpa using hr
        rw [← h2]; exact hres
      · rename_i sp hfind
        split at hr
        · have h2 : repromptFailed sp = r := by simpa using hr
          rw [← h2]; rfl
        · split at hr
          · have h2 : repromptFailed sp = r := by simpa using hr
            rw [← h2]; rfl
          · split at hr
            · simp at hr
            · rename_i res2 heq
              refine ih res2 _ _ _ _ ?_ r hr
              obtain ⟨r2, hr2, hok2⟩ := hfail _ _ _
              rw [heq] at hr2
              cases hr2
              exact hok2
    · have h2 : res = r := by simpa using hr
      rw [← h2]; exact hres

/-- The whole export phase attempts the export at most four times: the
initial attempt plus `MAX_EXPORT_RETRIES = 3` retries. -/
theorem attempt_calls_le (sink : ModelSink) (o : List (String × Value))
    (s : Session) (p : PromptState) (reqs : List FieldSpec) :
    (attemptWithReentryOnServerRejection sink o s p reqs).calls ≤ 4 := by
  unfold attemptWithReentryOnServerRejection
  split
  · simp
  · simpa [MAX_EXPORT_RETRIES] using
      retryLoop_calls_le sink reqs MAX_EXPORT_RETRIES _ o s p 1

/-- When every export attempt returns a non-ok result, the export phase
ends with a non-ok result. -/
theorem attempt_fail_ok_false (sink : ModelSink) (o : List (String × Value))
    (s : Session) (p : PromptState) (reqs : List FieldSpec)
    (hfail : ∀ o2 s2 n2, ∃ r2,
      sink.exportFn o2 s2 n2 = Except.ok r2 ∧ r2.ok = false) :
    ∀ r, (attemptWithReentryOnServerRejection sink o s p reqs).res =
        Except.ok r → r.ok = false := by
  intro r
  unfold attemptWithReentryOnServerRejection
  split
  · intro hr; simp at hr
  · rename_i r0 heq
    intro hr
    refine retryLoop_fail_ok_false sink reqs hfail MAX_EXPORT_RETRIES r0 o s p 1
      ?_ r hr
    obtain ⟨r2, hr2, hok2⟩ := hfail o s 0
    rw [heq] at hr2
    cases hr2
    exact hok2

/-- **C1 (amended).** For a sink whose export always returns a non-ok
result — in particular one that always returns
`{ok:false, retryable:true, field:"x"}` with `x` among its declared
requirements — `hydrateAndExport` attempts that sink's export at most
four times in total (one initial attempt plus `MAX_EXPORT_RETRIES = 3`
retries), and whenever the export was attempted at all the sink is
reported Failed (`ok = false`) with the final result of the retry
loop. -/
theorem c1_retry_bound_amended (sink : ModelSink) (s : Session)
    (p : PromptState)
    (hfail : ∀ o2 s2 n2, ∃ r2,
      sink.exportFn o2 s2 n2 = Except.ok r2 ∧ r2.ok = false) :
    (processSink sink s p).exportCalls ≤ 4
    ∧ (1 ≤ (processSink sink s p).exportCalls →
        (processSink sink s p).result.res.ok = false) := by
  unfold processSink
  cases hg : getReqs sink with
  | error e => exact ⟨by simp, by intro h; simp at h⟩
  | ok reqs =>
    dsimp only
    split
    · exact ⟨by simp, by intro h; simp at h⟩
    · split
      · exact ⟨by simp, by intro h; simp at h⟩
      · exact ⟨by simp, by intro h; simp at h⟩
      · split
        · rename_i e heq
          refine ⟨attempt_calls_le _ _ _ _ _, fun _ => rfl⟩
        · rename_i r heq
          exact ⟨attempt_calls_le _ _ _ _ _,
            fun _ => attempt_fail_ok_false sink _ s _ reqs hfail r heq⟩

/-- The requirement declared by the always-rejecting sink. -/
def c1Spec : FieldSpec :=
  { key := "x", label := "X", type := RequirementType.string,
    scope := RequirementScope.setup, required := true }

/-- A sink whose export always returns
`{ok:false, retryable:true, field:"x"}`, with `x` declared and already
hydrated from its configured options. -/
def c1Sink : ModelSink :=
  { kind := "svc", options := [("x", Value.vstr "v")],
    requirements := some (Except.ok [c1Spec]),
    exportFn := fun _ _ _ =>
      Except.ok { ok := false, retryable := true, field := some "x" } }

/-- **C1 (counterexample).** The sink `c1Sink` satisfies the premise of
the claim — its export always returns
`{ok:false, retryable:true, field:"x"}` with `x` among its declared
requirements — yet its export is attempted four times, not at most
three. -/
theorem c1_retry_bound_counterexample :
    (processSink c1Sink {} {}).exportCalls = 4
    ∧ (processSink c1Sink {} {}).result.res =
        { ok := false, retryable := true, field := some "x" } := by
  constructor <;> rfl

/-- Concrete run of `c1_retry_bound_amended` on `c1Sink`. -/
theorem c1_retry_bound_witness :
    (processSink c1Sink {} {}).exportCalls ≤ 4
    ∧ (1 ≤ (processSink c1Sink {} {}).exportCalls →
        (processSink c1Sink {} {}).result.res.ok = false) :=
  c1_retry_bound_amended c1Sink {} {}
    (fun _ _ _ =>
      ⟨{ ok := false, retryable := true, field := some "x" }, rfl, rfl⟩)

/-- **C2 (amended).** During hydration every resolved non-empty field
value — setup and runtime scope alike — is written into the options bag
of the destination; the session is not written during hydration.
Runtime-scope values are written back into the session (dedicated field
or metadata bag) only by `_inject` during export-retry re-injection. -/
theorem c2_hydration_amended (spec : FieldSpec) (opts : List (String × Value))
    (s : Session) (p : PromptState) (v : Value)
    (hres : (hydrResolved spec opts s p).fst = some v)
    (hne : valIsEmpty v = false) :
    lookupAssoc (hydrateOne spec opts s p).fst spec.key = some v
    ∧ ∀ (w : Value) (opts2 : List (String × Value)) (sess : Session),
        spec.scope = RequirementScope.runtime →
        sessionHasKey sess spec.key = true →
        injectField spec w opts2 sess = (opts2, sessionSetDyn sess spec.key w) := by
  constructor
  · unfold hydrateOne
    rw [hres]
    have hg : (spec.required && isEmpty (some v)) = false := by
      simp [isEmpty, isEmptyO, hne]
    rw [hg]
    simp only [Bool.false_eq_true, if_false, hne, Bool.not_false, if_pos]
    exact lookupAssoc_setAssoc_self _ _ _
  · intro w opts2 sess hscope hhas
    unfold injectField
    rw [hscope]
    simp [hhas]

/-- The runtime-scope requirement resolved during hydration in the
counterexample scenario. -/
def c2Spec : FieldSpec :=
  { key := "issueKey", label := "Issue", type := RequirementType.string,
    scope := RequirementScope.runtime, required := true }

/-- A sink declaring only the runtime `issueKey` requirement; its export
succeeds immediately. -/
def c2Sink : ModelSink :=
  { kind := "svc", requirements := some (Except.ok [c2Spec]),
    exportFn := fun _ _ _ => Except.ok { ok := true } }

/-- The prompt state scripting the user to type `ABC-1`. -/
def c2Prompt : PromptState := { oracle := [some (Value.vstr "ABC-1")] }

/-- **C2 (counterexample).** The runtime-scope field `issueKey` is
resolved during hydration (the user typed `ABC-1`), yet the value is
written only into the options bag of the destination: the session keeps
`issueKey = none` and an empty metadata bag, so a later destination in
the same run could not reuse it. -/
theorem c2_hydration_counterexample :
    (processSink c2Sink {} c2Prompt).session = ({} : Session)
    ∧ (processSink c2Sink {} c2Prompt).session.issueKey = none
    ∧ (processSink c2Sink {} c2Prompt).session.metaFields = []
    ∧ lookupAssoc (processSink c2Sink {} c2Prompt).sink.options "issueKey" =
        some (Value.vstr "ABC-1")
    ∧ (processSink c2Sink {} c2Prompt).prompt.promptCount = 1 := by
  refine ⟨rfl, rfl, rfl, rfl, rfl⟩

/-- Concrete run of `c2_hydration_amended`: the resolved runtime value
lands in the options bag, and `_inject` would write a runtime value into
the session field. -/
theorem c2_hydration_amended_witness :
    lookupAssoc (hydrateOne c2Spec [] {} c2Prompt).fst "issueKey" =
      some (Value.vstr "ABC-1")
    ∧ ∀ (w : Value) (opts2 : List (String × Value)) (sess : Session),
        c2Spec.scope = RequirementScope.runtime →
        sessionHasKey sess "issueKey" = true →
        injectField c2Spec w opts2 sess =
          (opts2, sessionSetDyn sess "issueKey" w) :=
  c2_hydration_amended c2Spec [] {} c2Prompt (Value.vstr "ABC-1")
    (by decide) (by decide)

/-- **C10.** `JiraSink.export` returns `ok:true` with the message
`Skipped (no issueKey)` and performs no network request whenever no
issue key is available from the injected options bag, from the
`issueKey` field of the session, or from the issue-key pattern extracted
from the session comment. -/
theorem c10_jira_skip_no_issue_key (opts : List (String × Value))
    (s : Session) (fetch : Option FetchResp)
    (h1 : jiraInjected opts = "")
    (h2 : jsTrim (match jiraFromSession s with
      | some t => t
      | none => "") = "") :
    jiraExport opts s fetch =
      ⟨{ ok := true, message := some "Skipped (no issueKey)" }, 0⟩ := by
  have hissue : jiraIssueOf opts s = "" := by
    unfold jiraIssueOf
    rw [h1]
    simpa using h2
  unfold jiraExport
  rw [hissue]
  rfl

/-- Concrete run of `c10_jira_skip_no_issue_key`: a whitespace injected
option, no session issue key, and a comment with no issue-key pattern
give the skip result and zero fetches. -/
theorem c10_jira_skip_no_issue_key_witness :
    jiraExport [("issueKey", Value.vstr " ")]
      { comment := some (Value.vstr "worked on login") }
      (some ⟨true, 200, ""⟩) =
      ⟨{ ok := true, message := some "Skipped (no issueKey)" }, 0⟩ :=
  c10_jira_skip_no_issue_key _ _ _ (by decide) (by decide)

/-- Concrete run of `c9_idempotent_persisted`: a settings-backed field
with a stored value resolves to it twice with zero prompts. -/
theorem c9_idempotent_persisted_witness :
    resolveField
      { key := "svc.domain", label := "Domain",
        type := RequirementType.string, scope := RequirementScope.setup,
        required := true, settingKey := some "clockit.svc.domain" }
      none
      { settings := [("clockit.svc.domain", Value.vstr "team.example.com")],
        oracle := [some (Value.vstr "other")] } =
    (some (Value.vstr "team.example.com"),
      { settings := [("clockit.svc.domain", Value.vstr "team.example.com")],
        oracle := [some (Value.vstr "other")] }) :=
  (c9_idempotent_persisted _ none _ (Value.vstr "team.example.com")
    rfl (by decide) (by decide)).1

end TimeIt

